import Mathlib

/-!
Verification of the image-selection and run-orchestration pipeline of
`create_timelapse_video.py` (a timelapse builder driving an external encoder).

The Python source is shallowly embedded below.  Conventions:
  * calendar dates are day numbers (`Nat`); naive datetimes and file
    modification times are seconds (`Int`), one day being 86400 seconds
    (this is exactly the naive Python `datetime` / `timedelta` arithmetic);
  * the filesystem and the outside world are an explicit `Env` record:
    directory listings, modification times, wall-clock samples, and the
    outcome (success or raised exception, as `Except String`) of each
    I/O step the orchestrator performs;
  * fallible Python operations return `Except String`, the payload being
    the exception text `str(e)`;
  * string helpers (`strip`, `split`, `replace`, `join`, sorting, slicing,
    `int()` parsing) are re-implemented structurally so that every
    definition evaluates inside the kernel.
-/

/-- Total lexicographic comparison of char lists by code point, matching
the Python string ordering. -/
def charListLe : List Char → List Char → Bool
  | [], _ => true
  | _ :: _, [] => false
  | a :: as, b :: bs =>
    if a.toNat < b.toNat then true
    else if b.toNat < a.toNat then false
    else charListLe as bs

/-- String comparison used by `sorted` in the source. -/
def strLe (a b : String) : Bool := charListLe a.toList b.toList

/-- Insert into a `strLe`-sorted list, keeping it sorted. -/
def insertSorted (x : String) : List String → List String
  | [] => [x]
  | y :: ys => if strLe x y then x :: y :: ys else y :: insertSorted x ys

/-- Model of the Python `sorted` on strings (insertion sort; `sorted` is a
stable comparison sort, and on a total order the result is the same). -/
def pySort (l : List String) : List String := l.foldr insertSorted []

/-- Model of `str.startswith`. -/
def strStartsWith (s p : String) : Bool := p.toList.isPrefixOf s.toList

/-- Model of the suffix test performed by a `*<ext>` glob pattern. -/
def strEndsWith (s p : String) : Bool := p.toList.isSuffixOf s.toList

/-- Accumulator pass for splitting a char list on a separator character. -/
def splitCharAux (sep : Char) : List Char → List Char → List (List Char)
  | acc, [] => [acc.reverse]
  | acc, c :: rest =>
    if c = sep then acc.reverse :: splitCharAux sep [] rest
    else splitCharAux sep (c :: acc) rest

/-- Model of the Python `str.split(sep)` for a one-character separator. -/
def pySplitChar (sep : Char) (s : String) : List String :=
  (splitCharAux sep [] s.toList).map String.mk

/-- Model of the Python `str.strip()` (whitespace removed from both ends). -/
def pyStrip (s : String) : String :=
  String.mk (((s.toList.dropWhile Char.isWhitespace).reverse.dropWhile
    Char.isWhitespace).reverse)

/-- Replace every occurrence of one character by another (Python
`str.replace` with one-character arguments). -/
def replaceChar (old new : Char) (l : List Char) : List Char :=
  l.map fun c => if c = old then new else c

/-- Fuel-driven left-to-right replacement of every non-overlapping
occurrence of `old` by `new`, as the Python `str.replace`. -/
def replaceFrom (old new : List Char) : Nat → List Char → List Char
  | _, [] => []
  | 0, l => l
  | fuel + 1, c :: rest =>
    if old.isPrefixOf (c :: rest) then
      new ++ replaceFrom old new fuel ((c :: rest).drop old.length)
    else
      c :: replaceFrom old new fuel rest

/-- Model of the Python `str.replace(old, new)` for nonempty `old` (every use
in the source passes a nonempty pattern; the Python behaviour on an empty
pattern, interspersing `new`, is not modelled). -/
def pyReplace (s old new : String) : String :=
  if old.toList = [] then s
  else String.mk (replaceFrom old.toList new.toList s.toList.length s.toList)

/-- Model of the Python `sep.join(parts)`. -/
def strJoin (sep : String) : List String → String
  | [] => ""
  | [x] => x
  | x :: y :: rest => x ++ sep ++ strJoin sep (y :: rest)

/-- Model of `os.path.join` on two POSIX components. -/
def pyJoin (a b : String) : String :=
  if strStartsWith b "/" then b
  else if a = "" ∨ strEndsWith a "/" then a ++ b
  else a ++ "/" ++ b

/-- Decimal digits to the natural number they denote. -/
def digitsToNat (l : List Char) : Nat :=
  l.foldl (fun n c => n * 10 + (c.toNat - 48)) 0

/-- Model of the Python `int(s)`: strip, optional sign, decimal digits;
`none` models the `ValueError` raised otherwise.  (Underscore digit
grouping, accepted by Python, is not modelled; no claim exercises it.) -/
def pyInt (s : String) : Option Int :=
  match (pyStrip s).toList with
  | [] => none
  | '-' :: rest =>
    if rest ≠ [] ∧ rest.all Char.isDigit then some (-(digitsToNat rest : Int))
    else none
  | '+' :: rest =>
    if rest ≠ [] ∧ rest.all Char.isDigit then some (digitsToNat rest : Int)
    else none
  | l =>
    if l.all Char.isDigit then some (digitsToNat l : Int) else none

/-- Zero-pad a natural number below 100 to two digits. -/
def pad2 (n : Nat) : String :=
  if n < 10 then "0" ++ Nat.repr n else Nat.repr n

/-- Round `num / den` to the nearest integer, ties to even (the rounding
used when formatting with two decimals). -/
def roundHalfEven (num den : Nat) : Nat :=
  let q := num / den
  let r := num % den
  if den < 2 * r then q + 1
  else if 2 * r < den then q
  else if q % 2 = 1 then q + 1 else q

/-- Model of the f-string `f"\x7bsize:.2f\x7d"` applied to
`bytes / (1024 * 1024)`: the megabyte value rendered with two decimals.
The Python float quotient is modelled as the exact rational. -/
def formatMB (bytes : Nat) : String :=
  let c := roundHalfEven (bytes * 100) (1024 * 1024)
  Nat.repr (c / 100) ++ "." ++ pad2 (c % 100)

/-- Model of `str(timedelta)` on a duration in seconds: `H:MM:SS`, with a
day count prefixed when the normalized day component is nonzero. -/
def formatTimedelta (t : Int) : String :=
  let days : Int := t.fdiv 86400
  let rem : Nat := (t - days * 86400).toNat
  let core :=
    Nat.repr (rem / 3600) ++ ":" ++ pad2 ((rem / 60) % 60) ++ ":" ++
      pad2 (rem % 60)
  if days = 0 then core
  else if days = 1 ∨ days = -1 then Int.repr days ++ " day, " ++ core
  else Int.repr days ++ " days, " ++ core

/-- Model of the Python slice `l[:k]` for an integer bound `k`
(a negative bound counts from the end, clamping at zero). -/
def pySlice (l : List String) (k : Int) : List String :=
  if 0 ≤ k then l.take k.toNat else l.take (l.length - (-k).toNat)

/-- A single-quote character as a string (used in manifest lines). -/
def squote : String := String.singleton (Char.ofNat 39)

/-- Logging severities used through `log_with_color`. -/
inductive LogLevel
  | info
  | error
  | warning
deriving DecidableEq

/-- One console/file log record: severity, message, color hint. -/
structure LogEntry where
  level : LogLevel
  message : String
  color : String
deriving DecidableEq

/-- The `test_amount` field of the sidecar document: the integer given on
the command line, or the string `"full"`. -/
inductive TestAmount
  | num (k : Int)
  | full
deriving DecidableEq

/-- The flat sidecar metadata document assembled at lines 218–234. -/
structure Metadata where
  date : String
  output_file : String
  file_size_MB : String
  duration : String
  start_time : String
  end_time : String
  number_of_images : Nat
  image_input_folder : String
  video_filter : String
  codec : String
  crf : Int
  preset : String
  bitrate : String
  video_size : String
  test_amount : TestAmount
deriving DecidableEq

/-- Terminal condition of one `create_timelapse` run. -/
inductive RunStatus
  | completed
  | abortedNoImages
  | failed (msg : String)
deriving DecidableEq

/-- Observable outcome of one run: log stream, completed side effects
(manifest writes, encoder launches, sidecar saves), terminal status, and
any exception escaping `create_timelapse` (always `none`: the function
body is wrapped in a catch-all handler). -/
structure RunTrace where
  logs : List LogEntry
  manifestWrites : List (List String)
  encoderRuns : List (List String)
  metadataSaves : List (String × Metadata)
  status : RunStatus
  raised : Option String
deriving DecidableEq

/-- The already-parsed `config.yaml` values the pipeline reads. -/
structure Config where
  image_input_folder : String
  image_folder_structure : String
  image_extension : String
  morning_to_morning : Bool
  morning_time : Int
  video_filter : String
  codec : String
  crf : Int
  preset : String
  max_bitrate : String
  min_bitrate : String
  buffer_size : String
  video_size : String
  output_folder : String
  output_folder_structure : String
  pfx : String
  sfx : String
  extension : String
  append_metadata : Bool
  metadata_save : Bool

/-- The outside world of one run: `strfdate` models `date.strftime`
(template to rendered string), `listdir` the names in a folder, `mtime`
`os.path.getmtime` in seconds, `now1`/`now2` the two `datetime.now()`
samples with their `strftime` renderings, and one `Except` outcome per
I/O step the orchestrator performs (manifest write, `os.makedirs`,
encoder launch plus progress monitoring, `os.path.getsize` in bytes,
sidecar write). -/
structure Env where
  strfdate : String → Nat → String
  listdir : String → List String
  mtime : String → Int
  now1 : Int
  now2 : Int
  startTimeStr : String
  endTimeStr : String
  writeListResult : Except String Unit
  mkdirResult : Except String Unit
  runResult : Except String Unit
  sizeResult : Except String Nat
  saveResult : Except String Unit

/-- Embeds `sanitize_for_filename` (line 47): `str(value)` with every
space, colon and slash replaced by an underscore, in that chain order. -/
def sanitize_for_filename (value : String) : String :=
  String.mk (replaceChar '/' '_' (replaceChar ':' '_'
    (replaceChar ' ' '_' value.toList)))

/-- Embeds `append_metadata_to_filename` (lines 51–67): when
`config.filename.append_metadata` is set, collect the labelled, sanitized
encoder parameters in fixed order and append them underscore-joined. -/
def append_metadata_to_filename (cfg : Config) (base_filename : String) :
    String :=
  let metadata : List String :=
    if cfg.append_metadata then
      ["filter-" ++ sanitize_for_filename cfg.video_filter,
       "codec-" ++ sanitize_for_filename cfg.codec,
       "crf-" ++ sanitize_for_filename (Int.repr cfg.crf),
       "preset-" ++ sanitize_for_filename cfg.preset,
       "bitrate-" ++ sanitize_for_filename cfg.max_bitrate,
       "size-" ++ sanitize_for_filename cfg.video_size]
    else []
  if metadata ≠ [] then
    base_filename ++ "_" ++ strJoin "_" metadata
  else base_filename

/-- The codecs of line 127 that trigger pixel-format negotiation. -/
def pixelFormatCodecs : List String := ["h264_v4l2m2m", "libx264", "libx265"]

/-- Embeds `build_ffmpeg_command` (lines 110–137): the fixed-order encoder
argument list, the conditional pixel-format/color-range flags, and the
output path appended last. -/
def build_ffmpeg_command (image_list_file output_path : String)
    (cfg : Config) : List String :=
  let ffmpeg_command : List String :=
    ["ffmpeg", "-y", "-loglevel", "error", "-hide_banner",
     "-f", "concat", "-safe", "0", "-i", image_list_file,
     "-vf", cfg.video_filter,
     "-c:v", cfg.codec,
     "-crf", Int.repr cfg.crf,
     "-preset", cfg.preset,
     "-b:v", cfg.max_bitrate,
     "-minrate", cfg.min_bitrate,
     "-maxrate", cfg.max_bitrate,
     "-bufsize", cfg.buffer_size,
     "-s", cfg.video_size]
  let ffmpeg_command :=
    if cfg.codec ∈ pixelFormatCodecs then
      ffmpeg_command ++ ["-pix_fmt", "yuv420p", "-color_range", "tv"]
    else ffmpeg_command
  ffmpeg_command ++ [output_path]

/-- Embeds `get_image_files` (lines 95–99): folder from the date-formatted
template, glob `*<ext>` (names not starting with a dot and ending with the
extension, joined onto the folder), sorted ascending. -/
def get_image_files (cfg : Config) (env : Env) (date : Nat) : List String :=
  let folder :=
    pyJoin cfg.image_input_folder (env.strfdate cfg.image_folder_structure date)
  pySort (((env.listdir folder).filter
      (fun f => !strStartsWith f "." && strEndsWith f cfg.image_extension)).map
    (fun f => pyJoin folder f))

/-- Embeds the image-selection block of `create_timelapse`
(lines 146–167): with morning-to-morning on, the files of the target day
at or after `date` + `morning_time` followed by next-day files at or before that
instant plus one day; otherwise the plain sorted listing for `date`. -/
def selectImages (cfg : Config) (env : Env) (date : Nat) : List String :=
  if cfg.morning_to_morning then
    let start_time_morning : Int := (date : Int) * 86400 + cfg.morning_time
    let end_time_morning : Int := start_time_morning + 86400
    let today_filtered_images :=
      (get_image_files cfg env date).filter
        fun img => start_time_morning ≤ env.mtime img
    let tomorrow_filtered_images :=
      (get_image_files cfg env (date + 1)).filter
        fun img => env.mtime img ≤ end_time_morning
    today_filtered_images ++ tomorrow_filtered_images
  else
    get_image_files cfg env date

/-- The image-selection contract as §4.1 of the specification words it:
the effective window is `[date at morning_time, (date+1) at morning_time]`;
take the files of the folder of `date` whose modification time is at or after
the window start, then the files of the folder of `(date+1)` at or before the
window end, each portion in its sorted order; with the mode disabled,
the sorted file list for `date` unmodified. -/
def selectImagesSpec (cfg : Config) (env : Env) (date : Nat) : List String :=
  if cfg.morning_to_morning then
    let windowStart : Int := (date : Int) * 86400 + cfg.morning_time
    let windowEnd : Int := ((date + 1 : Nat) : Int) * 86400 + cfg.morning_time
    ((get_image_files cfg env date).filter
        fun f => windowStart ≤ env.mtime f) ++
      ((get_image_files cfg env (date + 1)).filter
        fun f => env.mtime f ≤ windowEnd)
  else
    get_image_files cfg env date

/-- Embeds the `--test-amount` truncation (lines 173–176): a truthy value
(nonzero integer) slices the selection to its first `k` elements. -/
def usedImages (cfg : Config) (env : Env) (date : Nat) (ta : Option Int) :
    List String :=
  match ta with
  | some k =>
    if k ≠ 0 then pySlice (selectImages cfg env date) k
    else selectImages cfg env date
  | none => selectImages cfg env date

/-- Embeds the output-folder construction of line 182. -/
def outputFolderOf (cfg : Config) (env : Env) (date : Nat) : String :=
  pyJoin cfg.output_folder (env.strfdate cfg.output_folder_structure date)

/-- Embeds the output-path construction of lines 182–193: templated
folder, `prefix + YYYY_MM_DD + suffix` base name, optional metadata
qualifier, extension appended once. -/
def buildOutputPath (cfg : Config) (env : Env) (date : Nat) : String :=
  let base_filename :=
    cfg.pfx ++ env.strfdate "%Y_%m_%d" date ++ cfg.sfx
  let output_filename := append_metadata_to_filename cfg base_filename
  let output_filename := output_filename ++ cfg.extension
  pyJoin (outputFolderOf cfg env date) output_filename

/-- Model of `os.makedirs(path, exist_ok)` over a set of existing
directories: with `exist_ok` an existing path is accepted silently,
otherwise it raises `FileExistsError`; a missing path is created. -/
def makedirs (fs : List String) (path : String) (exist_ok : Bool) :
    Except String (List String) :=
  if path ∈ fs then
    if exist_ok then Except.ok fs else Except.error "FileExistsError"
  else Except.ok (path :: fs)

/-- The fixed manifest file name of `create_ffmpeg_file_list` (line 103). -/
def temp_list_file : String := "ffmpeg_images.txt"

/-- The manifest lines written by `create_ffmpeg_file_list`
(lines 102–107): one single-quoted `file` line per image path. -/
def manifestLines (images : List String) : List String :=
  images.map fun image => "file " ++ squote ++ image ++ squote

/-- Embeds one loop step of `parse_ffmpeg_progress` (lines 77–79) on a
stripped, nonempty line: a `frame=` line parses the text after the first
`=` and calls `progress_bar.update(frame - progress_bar.n)`, so the
indicator `n` becomes `n + (frame - n)`; other lines are ignored; a
malformed integer raises `ValueError`. -/
def progressStep (n : Int) (line : String) : Except String Int :=
  if strStartsWith line "frame=" then
    match pySplitChar '=' line with
    | _ :: v :: _ =>
      match pyInt (pyStrip v) with
      | some frame => Except.ok (n + (frame - n))
      | none => Except.error "ValueError: invalid literal for int"
    | _ => Except.error "IndexError: list index out of range"
  else Except.ok n

/-- Embeds the read loop of `parse_ffmpeg_progress` (lines 70–81): strip
each line, stop at the first empty one, fold `progressStep` over the rest;
the result is the final indicator value `progress_bar.n`. -/
def runProgress (lines : List String) (n : Int) : Except String Int :=
  match lines with
  | [] => Except.ok n
  | raw :: rest =>
    let line := pyStrip raw
    if line = "" then Except.ok n
    else
      match progressStep n line with
      | Except.ok n2 => runProgress rest n2
      | Except.error e => Except.error e

/-- The catch-all handler of lines 238–239: log the exception at error
severity in red and end the run without re-raising. -/
def failTrace (logs : List LogEntry) (m r : List (List String))
    (s : List (String × Metadata)) (e : String) : RunTrace :=
  { logs := logs ++
      [⟨LogLevel.error, "Error creating timelapse: " ++ e, "red"⟩],
    manifestWrites := m, encoderRuns := r, metadataSaves := s,
    status := RunStatus.failed e, raised := none }

/-- Embeds `create_timelapse` (lines 140–239) end to end: select images
(C3), abort on an empty selection (C2), truncate under a truthy
`--test-amount` (C4/C10), write the manifest, create the output folder,
build the encoder command, launch and monitor it, then log the summary
and optionally persist the sidecar document (C8); every step outcome
comes from `env`, and any raised step exception lands in the single
`failTrace` handler (C7).  `str(date)` is rendered via the equivalent
`%Y-%m-%d` format. -/
def createTimelapse (cfg : Config) (env : Env) (d : Nat) (ta : Option Int) :
    RunTrace :=
  let dateStr := env.strfdate "%Y-%m-%d" d
  let logsA : List LogEntry :=
    [⟨LogLevel.info, "Creating timelapse for date: " ++ dateStr, "green"⟩]
  let logsB :=
    if cfg.morning_to_morning then
      logsA ++ [⟨LogLevel.info, "Applying morning-to-morning logic", "cyan"⟩]
    else logsA
  let images0 := selectImages cfg env d
  if images0.isEmpty then
    { logs := logsB ++
        [⟨LogLevel.error,
          "No images found for the selected date: " ++ dateStr, "red"⟩],
      manifestWrites := [], encoderRuns := [], metadataSaves := [],
      status := RunStatus.abortedNoImages, raised := none }
  else
    let logsC :=
      match ta with
      | some k =>
        if k ≠ 0 then
          logsB ++ [⟨LogLevel.info,
            "Using only the first " ++ Int.repr k ++ " images for testing",
            "magenta"⟩]
        else logsB
      | none => logsB
    let images := usedImages cfg env d ta
    match env.writeListResult with
    | Except.error e => failTrace logsC [] [] [] e
    | Except.ok _ =>
      let manifest := manifestLines images
      match env.mkdirResult with
      | Except.error e => failTrace logsC [manifest] [] [] e
      | Except.ok _ =>
        let output_path := buildOutputPath cfg env d
        let ffmpeg_command :=
          build_ffmpeg_command temp_list_file output_path cfg ++
            ["-progress", "-", "-nostats"]
        let logsD := logsC ++
          [⟨LogLevel.info,
            "Running FFmpeg command: " ++ strJoin " " ffmpeg_command,
            "cyan"⟩]
        match env.runResult with
        | Except.error e => failTrace logsD [manifest] [] [] e
        | Except.ok _ =>
          match env.sizeResult with
          | Except.error e => failTrace logsD [manifest] [ffmpeg_command] [] e
          | Except.ok bytes =>
            let duration := env.now2 - env.now1
            let logsE := logsD ++
              [⟨LogLevel.info,
                "Timelapse created successfully: " ++ output_path, "green"⟩,
               ⟨LogLevel.info,
                "Timelapse duration: " ++ formatTimedelta duration, "blue"⟩,
               ⟨LogLevel.info,
                "Output file size: " ++ formatMB bytes ++ " MB", "blue"⟩]
            if cfg.metadata_save then
              let doc : Metadata :=
                { date := dateStr,
                  output_file := output_path,
                  file_size_MB := formatMB bytes,
                  duration := formatTimedelta duration,
                  start_time := env.startTimeStr,
                  end_time := env.endTimeStr,
                  number_of_images := images.length,
                  image_input_folder := cfg.image_input_folder,
                  video_filter := cfg.video_filter,
                  codec := cfg.codec,
                  crf := cfg.crf,
                  preset := cfg.preset,
                  bitrate := cfg.max_bitrate,
                  video_size := cfg.video_size,
                  test_amount :=
                    match ta with
                    | some k => if k ≠ 0 then TestAmount.num k else TestAmount.full
                    | none => TestAmount.full }
              let json_filename := pyReplace output_path cfg.extension ".json"
              match env.saveResult with
              | Except.error e => failTrace logsE [manifest] [ffmpeg_command] [] e
              | Except.ok _ =>
                { logs := logsE ++
                    [⟨LogLevel.info, "Metadata saved to " ++ json_filename,
                      "green"⟩],
                  manifestWrites := [manifest],
                  encoderRuns := [ffmpeg_command],
                  metadataSaves := [(json_filename, doc)],
                  status := RunStatus.completed, raised := none }
            else
              { logs := logsE, manifestWrites := [manifest],
                encoderRuns := [ffmpeg_command], metadataSaves := [],
                status := RunStatus.completed, raised := none }

/-- The module tail (lines 243–256): `create_timelapse` is called once and
the interpreter then exits; the exit code is zero unless an exception
escapes `create_timelapse`. -/
def programExitCode (cfg : Config) (env : Env) (d : Nat) (ta : Option Int) :
    Nat :=
  match (createTimelapse cfg env d ta).raised with
  | none => 0
  | some _ => 1

/-! ## Order-theoretic facts about the string comparison and the sort -/

theorem charListLe_total : ∀ a b : List Char,
    charListLe a b = true ∨ charListLe b a = true := by
  intro a
  induction a with
  | nil => intro b; left; rfl
  | cons x xs ih =>
    intro b
    cases b with
    | nil => right; rfl
    | cons y ys =>
      by_cases h1 : x.toNat < y.toNat
      · left; simp [charListLe, h1]
      · by_cases h2 : y.toNat < x.toNat
        · right; simp [charListLe, h1, h2]
        · rcases ih ys with h | h
          · left; simp [charListLe, h1, h2, h]
          · right; simp [charListLe, h1, h2, h]

theorem charListLe_trans : ∀ a b c : List Char,
    charListLe a b = true → charListLe b c = true → charListLe a c = true := by
  intro a
  induction a with
  | nil => intro b c _ _; rfl
  | cons x xs ih =>
    intro b c hab hbc
    cases b with
    | nil => simp [charListLe] at hab
    | cons y ys =>
      cases c with
      | nil => simp [charListLe] at hbc
      | cons z zs =>
        simp only [charListLe] at hab hbc ⊢
        by_cases h1 : x.toNat < y.toNat <;>
          by_cases h2 : y.toNat < x.toNat <;>
            by_cases h3 : y.toNat < z.toNat <;>
              by_cases h4 : z.toNat < y.toNat <;>
                simp [h1, h2, h3, h4] at hab hbc ⊢ <;>
                  first
                    | omega
                    | (exact Or.inl (by omega))
                    | (exact Or.inr (by omega))
                    | (exact Or.inr ⟨by omega, ih ys zs hab hbc⟩)

theorem strLe_total (a b : String) : strLe a b = true ∨ strLe b a = true :=
  charListLe_total a.toList b.toList

theorem strLe_trans {a b c : String} (h1 : strLe a b = true)
    (h2 : strLe b c = true) : strLe a c = true :=
  charListLe_trans a.toList b.toList c.toList h1 h2

theorem mem_insertSorted {z x : String} : ∀ {l : List String},
    z ∈ insertSorted x l → z = x ∨ z ∈ l := by
  intro l
  induction l with
  | nil => intro h; simp [insertSorted] at h; exact Or.inl h
  | cons y ys ih =>
    intro h
    by_cases hc : strLe x y
    · simp [insertSorted, hc] at h
      rcases h with h | h | h
      · exact Or.inl h
      · exact Or.inr (by simp [h])
      · exact Or.inr (by simp [h])
    · simp [insertSorted, hc] at h
      rcases h with h | h
      · exact Or.inr (by simp [h])
      · rcases ih h with h2 | h2
        · exact Or.inl h2
        · exact Or.inr (by simp [h2])

theorem pairwise_insertSorted (x : String) : ∀ l : List String,
    List.Pairwise (fun a b => strLe a b = true) l →
    List.Pairwise (fun a b => strLe a b = true) (insertSorted x l) := by
  intro l
  induction l with
  | nil => intro _; simp [insertSorted]
  | cons y ys ih =>
    intro hl
    rcases List.pairwise_cons.mp hl with ⟨hy, hys⟩
    by_cases hc : strLe x y
    · simp only [insertSorted, hc, if_true]
      refine List.pairwise_cons.mpr ⟨?_, hl⟩
      intro z hz
      rcases hz with _ | hz
      · exact hc
      · exact strLe_trans hc (hy z (by assumption))
    · simp only [insertSorted, hc, if_false]
      refine List.pairwise_cons.mpr ⟨?_, ih hys⟩
      intro z hz
      rcases mem_insertSorted hz with h2 | h2
      · rw [h2]
        rcases strLe_total x y with h | h
        · exact absurd h hc
        · exact h
      · exact hy z h2

theorem pySort_sorted (l : List String) :
    List.Pairwise (fun a b => strLe a b = true) (pySort l) := by
  induction l with
  | nil => simp [pySort]
  | cons x xs ih => exact pairwise_insertSorted x (pySort xs) ih

/-! ## Concrete configuration and world used to witness the theorems -/

/-- A representative parsed configuration. -/
def sampleConfig : Config :=
  { image_input_folder := "images"
    image_folder_structure := "%Y-%m-%d"
    image_extension := ".jpg"
    morning_to_morning := false
    morning_time := 27000
    video_filter := "scale=1920:1080"
    codec := "libx264"
    crf := 28
    preset := "slow"
    max_bitrate := "5M"
    min_bitrate := "1M"
    buffer_size := "10M"
    video_size := "1920x1080"
    output_folder := "videos"
    output_folder_structure := "%Y"
    pfx := "tl_"
    sfx := ""
    extension := ".mp4"
    append_metadata := false
    metadata_save := true }

/-- The same configuration with metadata-in-filename enabled. -/
def sampleConfigMeta : Config := { sampleConfig with append_metadata := true }

/-- A world where every I/O step succeeds and the image folder holds two
matching images plus one non-matching file. -/
def sampleEnv : Env :=
  { strfdate := fun tmpl d =>
      if tmpl = "%Y-%m-%d" then "2024-10-" ++ Nat.repr d
      else if tmpl = "%Y_%m_%d" then "2024_10_" ++ Nat.repr d
      else "2024-" ++ Nat.repr d
    listdir := fun _ => ["b.jpg", "a.jpg", "x.png"]
    mtime := fun _ => 0
    now1 := 100
    now2 := 102
    startTimeStr := "2024-10-05 20:00:00"
    endTimeStr := "2024-10-05 20:00:02"
    writeListResult := Except.ok ()
    mkdirResult := Except.ok ()
    runResult := Except.ok ()
    sizeResult := Except.ok (10 * 1024 * 1024)
    saveResult := Except.ok () }

/-- The same world with an empty image folder. -/
def sampleEnvEmpty : Env := { sampleEnv with listdir := fun _ => [] }

/-- The same world where launching the encoder raises an exception. -/
def sampleEnvBoom : Env := { sampleEnv with runResult := Except.error "boom" }

/-- The same world with 42 matching images and a 10 MB output file. -/
def sampleEnv42 : Env :=
  { sampleEnv with
      listdir := fun _ => (List.range 42).map fun i => Nat.repr i ++ ".jpg" }

/-! ## The claims -/

/-- Claim C1 counterexample.  The claim states the progress indicator is
monotonically non-decreasing, advancing to the maximum of the current and
the parsed frame, so that frame=5 arriving after frame=8 would leave it at
8.  On the code it is refuted: `progress_bar.update(frame - progress_bar.n)`
sets the tqdm counter to exactly the parsed frame (tqdm accepts a negative
delta), so the stream frame=8 then frame=5 leaves the indicator at 5. -/
theorem progress_indicator_regresses :
    runProgress ["frame=8", "frame=5"] 0 = Except.ok 5 ∧
    runProgress ["frame=8", "frame=5"] 0 ≠ Except.ok 8 := by
  refine ⟨rfl, ?_⟩
  intro h
  rw [(rfl : runProgress ["frame=8", "frame=5"] 0 = Except.ok 5)] at h
  injection h with h2
  exact absurd h2 (by decide)

/-- Claim C1, amended.  On each line of the form frame=N the indicator is
updated by (parsed - current), that is, it is set to exactly the parsed
frame value regardless of the current value; the progression is not
monotone, and an out-of-order value regresses the indicator (frame=5
after frame=8 leaves it at 5, not 8). -/
theorem progress_indicator_set_to_parsed_frame :
    (∀ (n : Int) (line v : String) (frame : Int),
      strStartsWith line "frame=" = true →
      (pySplitChar '=' line).get? 1 = some v →
      pyInt (pyStrip v) = some frame →
      progressStep n line = Except.ok frame) ∧
    runProgress ["frame=8", "frame=5"] 0 = Except.ok 5 := by
  constructor
  · intro n line v frame hpre hget hparse
    unfold progressStep
    rw [hpre]
    simp only [if_true]
    match hsplit : pySplitChar '=' line with
    | [] => rw [hsplit] at hget; simp at hget
    | [x] => rw [hsplit] at hget; simp at hget
    | x :: v2 :: rest =>
      rw [hsplit] at hget
      simp only [List.get?] at hget
      injection hget with hv
      subst hv
      dsimp only
      rw [hparse]
      dsimp only
      have hfix : n + (frame - n) = frame := by ring
      rw [hfix]
  · rfl

/-- Witness for the amended claim C1: with the indicator at 8, the line
frame=5 sets it to exactly 5. -/
theorem progress_indicator_set_to_parsed_frame_witness :
    progressStep 8 "frame=5" = Except.ok 5 :=
  progress_indicator_set_to_parsed_frame.1 8 "frame=5" "5" 5 rfl rfl rfl

/-- Claim C2.  When the selection for the date is empty, the run logs an
error naming the date, ends with the aborted status, and performs no
further effect: no manifest is written, the encoder is never launched,
and no sidecar is saved. -/
theorem abort_on_empty_selection (cfg : Config) (env : Env) (d : Nat)
    (ta : Option Int) (h : selectImages cfg env d = []) :
    (createTimelapse cfg env d ta).status = RunStatus.abortedNoImages ∧
    (createTimelapse cfg env d ta).manifestWrites = [] ∧
    (createTimelapse cfg env d ta).encoderRuns = [] ∧
    (createTimelapse cfg env d ta).metadataSaves = [] ∧
    (createTimelapse cfg env d ta).logs.getLast? =
      some ⟨LogLevel.error,
        "No images found for the selected date: " ++ env.strfdate "%Y-%m-%d" d,
        "red"⟩ := by
  unfold createTimelapse
  rw [h]
  simp [List.getLast?_concat]

/-- Witness for claim C2: an empty folder yields an aborted run with no
manifest write and no encoder launch. -/
theorem abort_on_empty_selection_witness :
    selectImages sampleConfig sampleEnvEmpty 5 = [] ∧
    (createTimelapse sampleConfig sampleEnvEmpty 5 none).status =
      RunStatus.abortedNoImages ∧
    (createTimelapse sampleConfig sampleEnvEmpty 5 none).manifestWrites = [] ∧
    (createTimelapse sampleConfig sampleEnvEmpty 5 none).encoderRuns = [] := by
  have h := abort_on_empty_selection sampleConfig sampleEnvEmpty 5 none rfl
  exact ⟨rfl, h.1, h.2.1, h.2.2.1⟩

/-- Claim C3.  The image selection of the code equals the selection the
specification describes: with morning-to-morning enabled, the files of
the target-date folder whose modification time is at or after the window
start, then the files of the next-date folder at or before the window
end, each portion in its sorted order; with the mode disabled, exactly
the sorted file list of the target date.  The listing produced by
`get_image_files` is indeed sorted ascending by the string order. -/
theorem selectImages_meets_spec (cfg : Config) (env : Env) (d : Nat) :
    selectImages cfg env d = selectImagesSpec cfg env d ∧
    List.Pairwise (fun a b => strLe a b = true) (get_image_files cfg env d) := by
  constructor
  · unfold selectImages selectImagesSpec
    by_cases h : cfg.morning_to_morning
    · simp only [h, if_true]
      congr 1
      have harith : (d : Int) * 86400 + cfg.morning_time + 86400 =
          ((d + 1 : Nat) : Int) * 86400 + cfg.morning_time := by
        push_cast
        ring
      rw [harith]
    · simp [h]
  · unfold get_image_files
    exact pySort_sorted _

/-- Claim C4.  For a nonempty selection and a provided test limit k with
0 < k < length, the images used for the run are exactly the first k
elements of the selection in their original order. -/
theorem test_limit_truncates_to_first_k (cfg : Config) (env : Env) (d : Nat)
    (k : Int) (hne : selectImages cfg env d ≠ [])
    (hpos : 0 < k) (hlt : k < (selectImages cfg env d).length) :
    usedImages cfg env d (some k) = (selectImages cfg env d).take k.toNat := by
  unfold usedImages
  dsimp only
  rw [if_pos (by omega : k ≠ 0)]
  unfold pySlice
  rw [if_pos (by omega : (0:Int) ≤ k)]

/-- Witness for claim C4: of the two selected images, a limit of 1 keeps
exactly the first one. -/
theorem test_limit_truncates_to_first_k_witness :
    selectImages sampleConfig sampleEnv 5 ≠ [] ∧
    usedImages sampleConfig sampleEnv 5 (some 1) =
      ["images/2024-10-5/a.jpg"] := by
  have h := test_limit_truncates_to_first_k sampleConfig sampleEnv 5 1
    (by decide) (by decide) (by decide)
  exact ⟨by decide, h.trans rfl⟩

/-- Claim C5.  With metadata-in-filename enabled the qualifier appended to
the base name is underscore-joined from the labelled, individually
sanitized settings values in the fixed order filter graph, codec,
constant-rate-factor, preset, max bitrate, frame size; sanitization
leaves 1920x1080 unchanged and turns 10:00 into 10_00. -/
theorem metadata_qualifier_fixed_order_sanitized (cfg : Config)
    (base : String) (h : cfg.append_metadata = true) :
    append_metadata_to_filename cfg base =
      base ++ "_" ++ strJoin "_"
        ["filter-" ++ sanitize_for_filename cfg.video_filter,
         "codec-" ++ sanitize_for_filename cfg.codec,
         "crf-" ++ sanitize_for_filename (Int.repr cfg.crf),
         "preset-" ++ sanitize_for_filename cfg.preset,
         "bitrate-" ++ sanitize_for_filename cfg.max_bitrate,
         "size-" ++ sanitize_for_filename cfg.video_size] ∧
    sanitize_for_filename "1920x1080" = "1920x1080" ∧
    sanitize_for_filename "10:00" = "10_00" := by
  refine ⟨?_, rfl, rfl⟩
  unfold append_metadata_to_filename
  rw [h]
  simp

/-- Witness for claim C5 at the sample configuration: the full derived
name, with the colon of the filter value sanitized to an underscore. -/
theorem metadata_qualifier_fixed_order_sanitized_witness :
    append_metadata_to_filename sampleConfigMeta "v" =
      "v_filter-scale=1920_1080_codec-libx264_crf-28_preset-slow_bitrate-5M_size-1920x1080" :=
  ((metadata_qualifier_fixed_order_sanitized sampleConfigMeta "v" rfl).1).trans
    rfl

/-- Claim C6.  The encoder argument list is deterministic and in fixed
order: overwrite flag, minimal-logging flags, concat input mode at the
manifest path, filter, codec, constant-rate-factor, preset,
target/min/max bitrate, buffer size, frame size, with the output path as
the final positional argument; exactly when the codec is in the known
fixed set, the pixel-format and limited-range color-range arguments are
additionally appended before the output path. -/
theorem ffmpeg_command_fixed_order (cfg : Config)
    (image_list_file output_path : String) :
    (cfg.codec ∈ pixelFormatCodecs →
      build_ffmpeg_command image_list_file output_path cfg =
        ["ffmpeg", "-y", "-loglevel", "error", "-hide_banner",
         "-f", "concat", "-safe", "0", "-i", image_list_file,
         "-vf", cfg.video_filter, "-c:v", cfg.codec,
         "-crf", Int.repr cfg.crf, "-preset", cfg.preset,
         "-b:v", cfg.max_bitrate, "-minrate", cfg.min_bitrate,
         "-maxrate", cfg.max_bitrate, "-bufsize", cfg.buffer_size,
         "-s", cfg.video_size,
         "-pix_fmt", "yuv420p", "-color_range", "tv", output_path]) ∧
    (cfg.codec ∉ pixelFormatCodecs →
      build_ffmpeg_command image_list_file output_path cfg =
        ["ffmpeg", "-y", "-loglevel", "error", "-hide_banner",
         "-f", "concat", "-safe", "0", "-i", image_list_file,
         "-vf", cfg.video_filter, "-c:v", cfg.codec,
         "-crf", Int.repr cfg.crf, "-preset", cfg.preset,
         "-b:v", cfg.max_bitrate, "-minrate", cfg.min_bitrate,
         "-maxrate", cfg.max_bitrate, "-bufsize", cfg.buffer_size,
         "-s", cfg.video_size, output_path]) ∧
    (build_ffmpeg_command image_list_file output_path cfg).getLast? =
      some output_path := by
  refine ⟨?_, ?_, ?_⟩
  · intro h
    unfold build_ffmpeg_command
    dsimp only
    rw [if_pos h]
    simp
  · intro h
    unfold build_ffmpeg_command
    dsimp only
    rw [if_neg h]
    simp
  · unfold build_ffmpeg_command
    dsimp only
    split <;> exact List.getLast?_concat _

/-- Witness for claim C6 at the sample configuration, whose codec libx264
is in the pixel-format set. -/
theorem ffmpeg_command_fixed_order_witness :
    build_ffmpeg_command "ffmpeg_images.txt" "out.mp4" sampleConfig =
      ["ffmpeg", "-y", "-loglevel", "error", "-hide_banner",
       "-f", "concat", "-safe", "0", "-i", "ffmpeg_images.txt",
       "-vf", "scale=1920:1080", "-c:v", "libx264", "-crf", "28",
       "-preset", "slow", "-b:v", "5M", "-minrate", "1M", "-maxrate", "5M",
       "-bufsize", "10M", "-s", "1920x1080",
       "-pix_fmt", "yuv420p", "-color_range", "tv", "out.mp4"] ∧
    (build_ffmpeg_command "ffmpeg_images.txt" "out.mp4" sampleConfig).getLast? =
      some "out.mp4" :=
  ⟨((ffmpeg_command_fixed_order sampleConfig "ffmpeg_images.txt" "out.mp4").1
      (by decide)).trans rfl,
   (ffmpeg_command_fixed_order sampleConfig "ffmpeg_images.txt" "out.mp4").2.2⟩

/-- Claim C7.  The orchestrator is the single error boundary: whatever the
outcome of every fallible step, no exception escapes `create_timelapse`,
the process exit code stays zero, the encoder is launched at most once
(no retry), and whenever the run ends in the failed state the final log
entry is at error severity and carries the underlying cause. -/
theorem orchestrator_single_error_boundary (cfg : Config) (env : Env)
    (d : Nat) (ta : Option Int) :
    (createTimelapse cfg env d ta).raised = none ∧
    programExitCode cfg env d ta = 0 ∧
    (createTimelapse cfg env d ta).encoderRuns.length ≤ 1 ∧
    ∀ e, (createTimelapse cfg env d ta).status = RunStatus.failed e →
      (createTimelapse cfg env d ta).logs.getLast? =
        some ⟨LogLevel.error, "Error creating timelapse: " ++ e, "red"⟩ := by
  have hr : (createTimelapse cfg env d ta).raised = none := by
    unfold createTimelapse failTrace
    iterate 14 (all_goals (try dsimp only); all_goals (try split))
  refine ⟨hr, ?_, ?_, ?_⟩
  · unfold programExitCode
    rw [hr]
  · unfold createTimelapse failTrace
    iterate 14 (all_goals (try dsimp only); all_goals (try split))
    all_goals simp
  · intro e he
    revert he
    unfold createTimelapse failTrace
    iterate 14 (all_goals (try dsimp only); all_goals (try split))
    all_goals intro he
    all_goals
      first
        | (simp at he; done)
        | (simp only [RunStatus.failed.injEq] at he
           subst he
           simp [List.getLast?_concat])

/-- Witness for claim C7: an encoder-launch exception is caught, logged in
red at error severity with its message, and the exit code is still 0. -/
theorem orchestrator_single_error_boundary_witness :
    (createTimelapse sampleConfig sampleEnvBoom 5 none).raised = none ∧
    programExitCode sampleConfig sampleEnvBoom 5 none = 0 ∧
    (createTimelapse sampleConfig sampleEnvBoom 5 none).logs.getLast? =
      some ⟨LogLevel.error, "Error creating timelapse: boom", "red"⟩ := by
  have h := orchestrator_single_error_boundary sampleConfig sampleEnvBoom 5 none
  exact ⟨h.1, h.2.1, h.2.2.2 "boom" rfl⟩

/-- Claim C8.  A successful run with metadata persistence enabled saves
exactly one sidecar document, at the output path with every occurrence of
the configured extension replaced by .json (a single trailing occurrence
in practice), whose number_of_images equals the count of images actually
encoded, whose file_size_MB is the byte size converted to megabytes and
rendered with two decimals (10 MB gives 10.00), and whose test_amount is
the full marker when no test limit was passed. -/
theorem sidecar_metadata_contents (cfg : Config) (env : Env) (d : Nat)
    (ta : Option Int) (bytes : Nat)
    (hmeta : cfg.metadata_save = true)
    (hne : selectImages cfg env d ≠ [])
    (hw : env.writeListResult = Except.ok ())
    (hm : env.mkdirResult = Except.ok ())
    (hrun : env.runResult = Except.ok ())
    (hsz : env.sizeResult = Except.ok bytes)
    (hsave : env.saveResult = Except.ok ()) :
    (createTimelapse cfg env d ta).status = RunStatus.completed ∧
    (createTimelapse cfg env d ta).metadataSaves =
      [(pyReplace (buildOutputPath cfg env d) cfg.extension ".json",
        { date := env.strfdate "%Y-%m-%d" d,
          output_file := buildOutputPath cfg env d,
          file_size_MB := formatMB bytes,
          duration := formatTimedelta (env.now2 - env.now1),
          start_time := env.startTimeStr,
          end_time := env.endTimeStr,
          number_of_images := (usedImages cfg env d ta).length,
          image_input_folder := cfg.image_input_folder,
          video_filter := cfg.video_filter,
          codec := cfg.codec,
          crf := cfg.crf,
          preset := cfg.preset,
          bitrate := cfg.max_bitrate,
          video_size := cfg.video_size,
          test_amount :=
            match ta with
            | some k => if k ≠ 0 then TestAmount.num k else TestAmount.full
            | none => TestAmount.full })] ∧
    formatMB (10 * 1024 * 1024) = "10.00" := by
  have hne2 : ¬((selectImages cfg env d).isEmpty = true) := by
    cases hsel : selectImages cfg env d with
    | nil => exact absurd hsel hne
    | cons a l => simp [List.isEmpty]
  refine ⟨?_, ?_, rfl⟩ <;>
    · unfold createTimelapse
      rw [hw, hm, hrun, hsz, hsave]
      dsimp only
      rw [if_neg hne2, if_pos hmeta]

/-- Witness for claim C8: a successful simulated run over 42 images
producing a 10 MB file saves a sidecar with number_of_images 42,
file_size_MB 10.00, the full test_amount marker, and the .json path. -/
theorem sidecar_metadata_contents_witness :
    (createTimelapse sampleConfig sampleEnv42 5 none).metadataSaves.map
        (fun pm => pm.2.number_of_images) = [42] ∧
    (createTimelapse sampleConfig sampleEnv42 5 none).metadataSaves.map
        (fun pm => pm.2.file_size_MB) = ["10.00"] ∧
    (createTimelapse sampleConfig sampleEnv42 5 none).metadataSaves.map
        (fun pm => pm.2.test_amount) = [TestAmount.full] ∧
    (createTimelapse sampleConfig sampleEnv42 5 none).metadataSaves.map
        (fun pm => pm.1) = ["videos/2024-5/tl_2024_10_5.json"] := by
  have h := sidecar_metadata_contents sampleConfig sampleEnv42 5 none
    (10 * 1024 * 1024) rfl (by decide) rfl rfl rfl rfl rfl
  rw [h.2.1]
  refine ⟨?_, rfl, rfl, rfl⟩
  decide

/-- Claim C9.  Output-path construction is deterministic and idempotent:
identical date and settings give the identical path on every call, and
the folder-creation step, invoked with the exist-ok flag as at line 183,
succeeds silently and leaves the filesystem unchanged when the output
folder already exists. -/
theorem output_path_deterministic_idempotent (cfg cfg2 : Config)
    (env env2 : Env) (d d2 : Nat) (fs : List String) (path : String)
    (hc : cfg = cfg2) (he : env = env2) (hd : d = d2) :
    buildOutputPath cfg env d = buildOutputPath cfg2 env2 d2 ∧
    (path ∈ fs → makedirs fs path true = Except.ok fs) := by
  subst hc he hd
  refine ⟨rfl, ?_⟩
  intro hmem
  unfold makedirs
  rw [if_pos hmem]
  rfl

/-- Witness for claim C9: the sample path twice, and folder creation over
a filesystem already holding the folder. -/
theorem output_path_deterministic_idempotent_witness :
    buildOutputPath sampleConfig sampleEnv 5 =
      buildOutputPath sampleConfig sampleEnv 5 ∧
    makedirs ["videos/2024-5"] "videos/2024-5" true =
      Except.ok ["videos/2024-5"] := by
  have h := output_path_deterministic_idempotent sampleConfig sampleConfig
    sampleEnv sampleEnv 5 5 ["videos/2024-5"] "videos/2024-5" rfl rfl rfl
  exact ⟨h.1, h.2 (by decide)⟩

/-- Claim C10.  A test-amount argument of 0 is falsy in the two guards of
lines 174 and 233, so the whole run is identical to a run with no
test-amount at all: the selection is not truncated, and the sidecar
records the full marker rather than 0. -/
theorem test_amount_zero_treated_as_absent (cfg : Config) (env : Env)
    (d : Nat) :
    createTimelapse cfg env d (some 0) = createTimelapse cfg env d none ∧
    usedImages cfg env d (some 0) = selectImages cfg env d :=
  ⟨rfl, rfl⟩
